import Mathlib

/-!
Verification of the android-mcp-server device-session layer.

Python strings are modelled as `List Char` (`PyStr`); the external
collaborators (the adb subprocess, the device shell, the XML parser and
the YAML parser) are modelled by passing their observable results in as
explicit arguments.  Every definition below is a direct translation of
the corresponding Python function in `adbdevicemanager.py` or
`server.py`.
-/

/-- Python strings, modelled as lists of characters. -/
abbrev PyStr := List Char

/-- Convert a Lean string literal to the `PyStr` model. -/
def pyStr (s : String) : PyStr := s.data

/-- ASCII whitespace characters stripped by Python `str.strip()`
(Unicode whitespace beyond ASCII is not modelled; adb output is ASCII). -/
def isPySpace (c : Char) : Bool :=
  c = ' ' || c = '\t' || c = '\n' || c = '\r' || c = '\x0b' || c = '\x0c'

/-- Python `str.strip()`: remove leading and trailing whitespace. -/
def pyStrip (s : PyStr) : PyStr :=
  ((s.dropWhile isPySpace).reverse.dropWhile isPySpace).reverse

/-- Python `str.split(sep)` for a one-character separator: splits on every
occurrence of the separator, keeping empty pieces. -/
def splitOnChar (c : Char) : PyStr → List PyStr
  | [] => [[]]
  | x :: xs =>
    if x = c then [] :: splitOnChar c xs
    else
      match splitOnChar c xs with
      | [] => [[x]]
      | h :: t => (x :: h) :: t

/-- Python `sep.join(pieces)`. -/
def pyJoin (sep : PyStr) : List PyStr → PyStr
  | [] => []
  | [x] => x
  | x :: y :: t => x ++ sep ++ pyJoin sep (y :: t)

/-- Python `haystack.find(needle)`: index of the first occurrence of
`needle` in `haystack`, `none` standing for Python's `-1`. -/
def pyFind : PyStr → PyStr → Option Nat
  | [], needle => if needle.isPrefixOf ([] : PyStr) then some 0 else none
  | c :: rest, needle =>
    if needle.isPrefixOf (c :: rest) then some 0
    else (pyFind rest needle).map (· + 1)

/-!
## `AdbDeviceManager.execute_adb_shell_command`

```python
def execute_adb_shell_command(self, command: str) -> str:
    if command.startswith("adb shell "):
        command = command[10:]
    elif command.startswith("adb "):
        command = command[4:]
    result = self.device.shell(command)
    return result
```

The shell itself is external; the model returns the command string that
is actually passed to `self.device.shell`.
-/

/-- The command string `execute_adb_shell_command` passes to
`device.shell` after prefix stripping. -/
def execute_adb_shell_command (command : PyStr) : PyStr :=
  if (pyStr "adb shell ").isPrefixOf command then command.drop 10
  else if (pyStr "adb ").isPrefixOf command then command.drop 4
  else command

/-- C1: `execute_adb_shell_command` strips exactly the first 10 characters
when the input starts with `"adb shell "`, else exactly the first 4 when it
starts with `"adb "`, else passes the input through unchanged; in
particular `"adb shell ls"` executes `"ls"`, `"adb version"` executes
`"version"`, and `"ls"` executes `"ls"`. -/
theorem execute_adb_shell_command_spec :
    (∀ raw : PyStr, pyStr "adb shell " <+: raw →
      execute_adb_shell_command raw = raw.drop 10) ∧
    (∀ raw : PyStr, ¬ (pyStr "adb shell " <+: raw) → pyStr "adb " <+: raw →
      execute_adb_shell_command raw = raw.drop 4) ∧
    (∀ raw : PyStr, ¬ (pyStr "adb shell " <+: raw) → ¬ (pyStr "adb " <+: raw) →
      execute_adb_shell_command raw = raw) ∧
    execute_adb_shell_command (pyStr "adb shell ls") = pyStr "ls" ∧
    execute_adb_shell_command (pyStr "adb version") = pyStr "version" ∧
    execute_adb_shell_command (pyStr "ls") = pyStr "ls" := by
  refine ⟨?_, ?_, ?_, by decide, by decide, by decide⟩
  · intro raw h
    simp only [execute_adb_shell_command]
    rw [if_pos (List.isPrefixOf_iff_prefix.mpr h)]
  · intro raw h1 h2
    simp only [execute_adb_shell_command]
    rw [if_neg (by simpa using h1), if_pos (List.isPrefixOf_iff_prefix.mpr h2)]
  · intro raw h1 h2
    simp only [execute_adb_shell_command]
    rw [if_neg (by simpa using h1), if_neg (by simpa using h2)]

/-- Witness for C1: the three hypothesis-bearing branches applied at
concrete inputs. -/
theorem execute_adb_shell_command_spec_witness :
    execute_adb_shell_command (pyStr "adb shell pwd") = (pyStr "adb shell pwd").drop 10 ∧
    execute_adb_shell_command (pyStr "adb devices") = (pyStr "adb devices").drop 4 ∧
    execute_adb_shell_command (pyStr "pwd") = pyStr "pwd" :=
  ⟨execute_adb_shell_command_spec.1 (pyStr "adb shell pwd") (by decide),
   execute_adb_shell_command_spec.2.1 (pyStr "adb devices") (by decide) (by decide),
   execute_adb_shell_command_spec.2.2.1 (pyStr "pwd") (by decide) (by decide)⟩

/-!
## `AdbDeviceManager.__init__` — device selection

The constructor checks that adb is installed, enumerates devices, and
selects one; each failure either exits the process (`exit_on_error=True`)
or raises `RuntimeError` (`exit_on_error=False`).  The adb installation
check and the device enumeration are external, so their results are
passed in as arguments.
-/

/-- The single-quote character, used by Python's `str(list)` rendering. -/
def squote : Char := Char.ofNat 39

/-- Python's `str(list_of_strings)` rendering used by the f-string error
messages, e.g. `['a', 'b']`.  Quote/backslash escaping inside serials is
not modelled: adb serials contain neither. -/
def pyListRepr (l : List PyStr) : PyStr :=
  pyStr "[" ++ pyJoin (pyStr ", ") (l.map (fun s => squote :: s ++ [squote])) ++ pyStr "]"

/-- Python truthiness of the optional `device_name` argument
(`if device_name:`): `None` and the empty string are falsy. -/
def pyTruthy : Option PyStr → Bool
  | none => false
  | some s => !s.isEmpty

/-- Error message of the adb-not-installed failure. -/
def adbNotInstalledMsg : PyStr :=
  pyStr "adb is not installed or not in PATH. Please install adb and ensure it is in your PATH."

/-- Error message of the no-devices failure. -/
def noDevicesMsg : PyStr :=
  pyStr "No devices connected. Please connect a device and try again."

/-- Error message of the requested-device-absent failure
(`f"Device {device_name} not found. Available devices: {available_devices}"`). -/
def deviceNotFoundMsg (deviceName : PyStr) (availableDevices : List PyStr) : PyStr :=
  pyStr "Device " ++ deviceName ++ pyStr " not found. Available devices: " ++
    pyListRepr availableDevices

/-- Error message of the multiple-devices-without-selection failure. -/
def ambiguousDeviceMsg (availableDevices : List PyStr) : PyStr :=
  pyStr "Multiple devices connected: " ++ pyListRepr availableDevices ++
    pyStr ". Please specify a device in config.yaml or connect only one device."

/-- The Python exception class name raised by every selection failure in
library mode. -/
def runtimeErrorType : PyStr := pyStr "RuntimeError"

/-- Observable outcome of `AdbDeviceManager.__init__`: success binds the
selected serial (`None` only on the unreachable fall-through), or the
process exits, or a Python exception is raised. -/
inductive InitOutcome where
  | ok (selected : Option PyStr)
  | exited (code : Nat) (stderrMsg : PyStr)
  | raised (excType : PyStr) (msg : PyStr)
deriving DecidableEq

/-- `AdbDeviceManager.__init__`, with the results of the external calls
(`check_adb_installed`, `get_available_devices`) passed in. -/
def adbDeviceManagerInit (adbInstalled : Bool) (availableDevices : List PyStr)
    (deviceName : Option PyStr) (exitOnError : Bool) : InitOutcome :=
  if !adbInstalled then
    if exitOnError then .exited 1 adbNotInstalledMsg
    else .raised runtimeErrorType adbNotInstalledMsg
  else if availableDevices.isEmpty then
    if exitOnError then .exited 1 noDevicesMsg
    else .raised runtimeErrorType noDevicesMsg
  else if pyTruthy deviceName then
    let name := deviceName.getD []
    if name ∈ availableDevices then .ok (some name)
    else if exitOnError then .exited 1 (deviceNotFoundMsg name availableDevices)
    else .raised runtimeErrorType (deviceNotFoundMsg name availableDevices)
  else if availableDevices.length = 1 then .ok (some availableDevices.headI)
  else if availableDevices.length > 1 then
    if exitOnError then .exited 1 (ambiguousDeviceMsg availableDevices)
    else .raised runtimeErrorType (ambiguousDeviceMsg availableDevices)
  else .ok none

/-- An infix survives surrounding the string with more text. -/
theorem infix_extend {l m : PyStr} (a b : PyStr) (h : l <:+: m) :
    l <:+: a ++ m ++ b := by
  obtain ⟨s, t, rfl⟩ := h
  exact ⟨a ++ s, t ++ b, by simp⟩

/-- A member of a list is an infix of any `pyJoin` of that list. -/
theorem infix_pyJoin {x : PyStr} (sep : PyStr) {xs : List PyStr} (h : x ∈ xs) :
    x <:+: pyJoin sep xs := by
  induction xs with
  | nil => cases h
  | cons a t ih =>
    cases t with
    | nil =>
      rcases List.mem_cons.mp h with rfl | h
      · exact List.infix_rfl
      · cases h
    | cons b t' =>
      rcases List.mem_cons.mp h with rfl | h
      · exact ⟨[], sep ++ pyJoin sep (b :: t'), by simp [pyJoin]⟩
      · have := infix_extend (a ++ sep) ([] : PyStr) (ih h)
        simpa [pyJoin] using this

/-- Every device identifier occurs verbatim in the Python rendering of
the device list. -/
theorem mem_infix_pyListRepr {d : PyStr} {l : List PyStr} (h : d ∈ l) :
    d <:+: pyListRepr l := by
  have h1 : d <:+: squote :: d ++ [squote] := ⟨[squote], [squote], rfl⟩
  have h2 : (squote :: d ++ [squote]) <:+:
      pyJoin (pyStr ", ") (l.map (fun s => squote :: s ++ [squote])) :=
    infix_pyJoin _ (List.mem_map_of_mem _ h)
  exact infix_extend (pyStr "[") (pyStr "]") (h1.trans h2)

/-- C2: with at least two devices and no requested name (absent or empty),
initialization fails — raising in library mode, exiting in CLI mode — with
the multiple-devices error whose message contains every available device
identifier; no device is selected. -/
theorem ambiguous_device_selection_spec :
    ∀ (availableDevices : List PyStr) (deviceName : Option PyStr),
      2 ≤ availableDevices.length →
      (deviceName = none ∨ deviceName = some []) →
      adbDeviceManagerInit true availableDevices deviceName false
          = .raised runtimeErrorType (ambiguousDeviceMsg availableDevices) ∧
      adbDeviceManagerInit true availableDevices deviceName true
          = .exited 1 (ambiguousDeviceMsg availableDevices) ∧
      (∀ d ∈ availableDevices, d <:+: ambiguousDeviceMsg availableDevices) ∧
      (∀ exitOnError sel,
        adbDeviceManagerInit true availableDevices deviceName exitOnError ≠ .ok sel) := by
  intro availableDevices deviceName hlen hreq
  have hemp : availableDevices.isEmpty = false := by
    cases availableDevices with
    | nil => simp at hlen
    | cons a t => rfl
  have htruthy : pyTruthy deviceName = false := by
    rcases hreq with rfl | rfl <;> rfl
  have h1 : ¬ (availableDevices.length = 1) := by omega
  have h2 : availableDevices.length > 1 := by omega
  have hinit : ∀ exitOnError, adbDeviceManagerInit true availableDevices deviceName exitOnError
      = if exitOnError then .exited 1 (ambiguousDeviceMsg availableDevices)
        else .raised runtimeErrorType (ambiguousDeviceMsg availableDevices) := by
    intro exitOnError
    simp [adbDeviceManagerInit, hemp, htruthy, h1, h2]
  refine ⟨hinit false, hinit true, ?_, ?_⟩
  · intro d hd
    exact infix_extend _ _ (mem_infix_pyListRepr hd)
  · intro exitOnError sel
    rw [hinit exitOnError]
    cases exitOnError <;> simp

/-- Witness for C2 at the concrete two-device list `["a", "b"]` with no
requested name. -/
theorem ambiguous_device_selection_spec_witness :
    adbDeviceManagerInit true [pyStr "a", pyStr "b"] none false
        = .raised runtimeErrorType (ambiguousDeviceMsg [pyStr "a", pyStr "b"]) ∧
    pyStr "a" <:+: ambiguousDeviceMsg [pyStr "a", pyStr "b"] ∧
    pyStr "b" <:+: ambiguousDeviceMsg [pyStr "a", pyStr "b"] := by
  have h := ambiguous_device_selection_spec [pyStr "a", pyStr "b"] none
    (by decide) (Or.inl rfl)
  exact ⟨h.1, h.2.2.1 _ (by simp), h.2.2.1 _ (by simp)⟩

/-- C3: a non-empty requested name absent from a non-empty device list
makes initialization fail — raising in library mode, exiting in CLI
mode — with the device-not-found error whose message contains both the
requested name and every available device identifier. -/
theorem device_not_found_spec :
    ∀ (availableDevices : List PyStr) (name : PyStr),
      availableDevices ≠ [] →
      name ≠ [] →
      name ∉ availableDevices →
      adbDeviceManagerInit true availableDevices (some name) false
          = .raised runtimeErrorType (deviceNotFoundMsg name availableDevices) ∧
      adbDeviceManagerInit true availableDevices (some name) true
          = .exited 1 (deviceNotFoundMsg name availableDevices) ∧
      name <:+: deviceNotFoundMsg name availableDevices ∧
      (∀ d ∈ availableDevices, d <:+: deviceNotFoundMsg name availableDevices) := by
  intro availableDevices name hne hname hmem
  have hemp : availableDevices.isEmpty = false := by
    cases availableDevices with
    | nil => exact absurd rfl hne
    | cons a t => rfl
  have htruthy : pyTruthy (some name) = true := by
    simp [pyTruthy, hname]
  have hinit : ∀ exitOnError, adbDeviceManagerInit true availableDevices (some name) exitOnError
      = if exitOnError then .exited 1 (deviceNotFoundMsg name availableDevices)
        else .raised runtimeErrorType (deviceNotFoundMsg name availableDevices) := by
    intro exitOnError
    simp [adbDeviceManagerInit, hemp, htruthy, hmem]
  refine ⟨hinit false, hinit true, ?_, ?_⟩
  · exact ⟨pyStr "Device ",
      pyStr " not found. Available devices: " ++ pyListRepr availableDevices,
      by simp [deviceNotFoundMsg]⟩
  · intro d hd
    have h := infix_extend
      (pyStr "Device " ++ name ++ pyStr " not found. Available devices: ")
      ([] : PyStr) (mem_infix_pyListRepr hd)
    simpa [deviceNotFoundMsg] using h

/-- Witness for C3 at the concrete list `["a", "b"]` and requested name
`"c"`. -/
theorem device_not_found_spec_witness :
    adbDeviceManagerInit true [pyStr "a", pyStr "b"] (some (pyStr "c")) false
        = .raised runtimeErrorType (deviceNotFoundMsg (pyStr "c") [pyStr "a", pyStr "b"]) ∧
    pyStr "c" <:+: deviceNotFoundMsg (pyStr "c") [pyStr "a", pyStr "b"] ∧
    pyStr "a" <:+: deviceNotFoundMsg (pyStr "c") [pyStr "a", pyStr "b"] := by
  have h := device_not_found_spec [pyStr "a", pyStr "b"] (pyStr "c")
    (by decide) (by decide) (by decide)
  exact ⟨h.1, h.2.2.1, h.2.2.2 _ (by simp)⟩

/-- C10: in library mode (`exit_on_error = False`) all four selection-time
failures — adb missing, zero devices, requested device absent, several
devices with no request — raise one and the same Python exception type,
`RuntimeError`; they differ only in the message carried. -/
theorem library_mode_single_exception_type :
    (∀ availableDevices deviceName,
      adbDeviceManagerInit false availableDevices deviceName false
        = .raised runtimeErrorType adbNotInstalledMsg) ∧
    (∀ deviceName,
      adbDeviceManagerInit true [] deviceName false
        = .raised runtimeErrorType noDevicesMsg) ∧
    (∀ availableDevices name, availableDevices ≠ [] → name ≠ [] →
      name ∉ availableDevices →
      adbDeviceManagerInit true availableDevices (some name) false
        = .raised runtimeErrorType (deviceNotFoundMsg name availableDevices)) ∧
    (∀ availableDevices, 1 < availableDevices.length →
      adbDeviceManagerInit true availableDevices none false
        = .raised runtimeErrorType (ambiguousDeviceMsg availableDevices)) := by
  refine ⟨?_, ?_, ?_, ?_⟩
  · intro availableDevices deviceName
    rfl
  · intro deviceName
    rfl
  · intro availableDevices name hne hname hmem
    have hemp : availableDevices.isEmpty = false := by
      cases availableDevices with
      | nil => exact absurd rfl hne
      | cons a t => rfl
    have htruthy : pyTruthy (some name) = true := by simp [pyTruthy, hname]
    simp [adbDeviceManagerInit, hemp, htruthy, hmem]
  · intro availableDevices hlen
    have hemp : availableDevices.isEmpty = false := by
      cases availableDevices with
      | nil => simp at hlen
      | cons a t => rfl
    have h1 : ¬ (availableDevices.length = 1) := by omega
    simp [adbDeviceManagerInit, hemp, pyTruthy, h1, hlen]

/-- Witness for C10: all four failure scenarios at concrete inputs raise
with the same exception type. -/
theorem library_mode_single_exception_type_witness :
    adbDeviceManagerInit false [pyStr "a"] none false
        = .raised runtimeErrorType adbNotInstalledMsg ∧
    adbDeviceManagerInit true [] none false
        = .raised runtimeErrorType noDevicesMsg ∧
    adbDeviceManagerInit true [pyStr "a"] (some (pyStr "c")) false
        = .raised runtimeErrorType (deviceNotFoundMsg (pyStr "c") [pyStr "a"]) ∧
    adbDeviceManagerInit true [pyStr "a", pyStr "b"] none false
        = .raised runtimeErrorType (ambiguousDeviceMsg [pyStr "a", pyStr "b"]) :=
  ⟨library_mode_single_exception_type.1 [pyStr "a"] none,
   library_mode_single_exception_type.2.1 none,
   library_mode_single_exception_type.2.2.1 [pyStr "a"] (pyStr "c")
     (by decide) (by decide) (by decide),
   library_mode_single_exception_type.2.2.2 [pyStr "a", pyStr "b"] (by decide)⟩

/-!
## `AdbDeviceManager.check_adb_installed`

```python
try:
    subprocess.run(["adb", "version"], check=True, stdout=subprocess.PIPE)
    return True
except (subprocess.CalledProcessError, FileNotFoundError):
    return False
```
-/

/-- Outcome of `subprocess.run(["adb", "version"], check=True)`: success,
`CalledProcessError` (nonzero exit under `check=True`), or
`FileNotFoundError` (executable missing).  The call can also raise other
`OSError`s the `except` clause does not name: `permissionError` stands
for the concrete case of an `adb` file found in `PATH` that is not
executable, which `subprocess.run` reports as `PermissionError`. -/
inductive SubprocessResult where
  | success
  | calledProcessError
  | fileNotFoundError
  | permissionError
deriving DecidableEq

/-- `check_adb_installed`, with the subprocess outcome passed in.  The
`except (subprocess.CalledProcessError, FileNotFoundError)` clause
catches exactly those two exception types; any other exception
propagates to the caller (`Except.error` carries the Python exception
class name). -/
def check_adb_installed : SubprocessResult → Except PyStr Bool
  | .success => .ok true
  | .calledProcessError => .ok false
  | .fileNotFoundError => .ok false
  | .permissionError => .error (pyStr "PermissionError")

/-- C9 counterexample: a `PermissionError` raised by the underlying
invocation is not mapped to the return value `false` — it escapes
`check_adb_installed` as an exception, so the claim that every possible
failure maps to `false` with no exception escaping is false. -/
theorem check_adb_installed_claim_counterexample :
    check_adb_installed SubprocessResult.permissionError
      = Except.error (pyStr "PermissionError") ∧
    check_adb_installed SubprocessResult.permissionError ≠ Except.ok false ∧
    (∀ b : Bool, check_adb_installed SubprocessResult.permissionError ≠ Except.ok b) := by
  refine ⟨rfl, ?_, ?_⟩
  · intro h
    exact Except.noConfusion h
  · intro b h
    exact Except.noConfusion h

/-- C9 (amended): `check_adb_installed` returns `true` exactly when the
version query exits successfully; the two failure modes named in the
`except` clause — nonzero exit and missing executable — return `false`
with no exception escaping, while an uncaught failure of the invocation
such as `PermissionError` propagates as an exception. -/
theorem check_adb_installed_spec :
    check_adb_installed SubprocessResult.success = Except.ok true ∧
    check_adb_installed SubprocessResult.calledProcessError = Except.ok false ∧
    check_adb_installed SubprocessResult.fileNotFoundError = Except.ok false ∧
    (∀ r : SubprocessResult,
      check_adb_installed r = Except.ok true ↔ r = SubprocessResult.success) ∧
    check_adb_installed SubprocessResult.permissionError
      = Except.error (pyStr "PermissionError") := by
  refine ⟨rfl, rfl, rfl, ?_, rfl⟩
  intro r
  cases r <;> simp [check_adb_installed]

/-!
## Configuration loading (`server.py`, module level)

The YAML parse itself is external; `ConfigInput` records its observable
result: the file is missing, the file fails to load/parse (the `except`
branch, which exits with status 1), or it parses with a configured
`device.name` value (`none` covering a null/absent name and an absent or
falsy `device` section alike).
-/

/-- Observable result of locating and parsing `config.yaml`. -/
inductive ConfigInput where
  | missing
  | parseFailure
  | parsed (configuredDeviceName : Option PyStr)

/-- The module-level config-loading logic of `server.py`: the resulting
`device_name` handed to `AdbDeviceManager` (`none` = auto-select), or the
exit code on a malformed config file. -/
def loadConfigDeviceName : ConfigInput → Except Nat (Option PyStr)
  | .missing => .ok none
  | .parseFailure => .error 1
  | .parsed none => .ok none
  | .parsed (some n) =>
    if !n.isEmpty && !(pyStrip n).isEmpty then .ok (some (pyStrip n))
    else .ok none

/-- C8: a missing config file, a null name, an empty name and a
whitespace-only name all yield auto-selection (no pinned device), a
missing file is not an error, and any value with non-blank content pins
the trimmed value — in particular `"  x  "` pins `"x"`. -/
theorem config_loading_spec :
    loadConfigDeviceName ConfigInput.missing = Except.ok none ∧
    loadConfigDeviceName (ConfigInput.parsed none) = Except.ok none ∧
    loadConfigDeviceName (ConfigInput.parsed (some [])) = Except.ok none ∧
    loadConfigDeviceName (ConfigInput.parsed (some (pyStr "  "))) = Except.ok none ∧
    (∀ n : PyStr, pyStrip n ≠ [] →
      loadConfigDeviceName (ConfigInput.parsed (some n)) = Except.ok (some (pyStrip n))) ∧
    loadConfigDeviceName (ConfigInput.parsed (some (pyStr "  x  ")))
      = Except.ok (some (pyStr "x")) := by
  refine ⟨rfl, rfl, rfl, rfl, ?_, rfl⟩
  intro n hn
  have hne : n ≠ [] := by
    rintro rfl
    exact hn rfl
  have h1 : n.isEmpty = false := by simp [List.isEmpty_iff, hne]
  have h2 : (pyStrip n).isEmpty = false := by simp [List.isEmpty_iff, hn]
  simp [loadConfigDeviceName, h1, h2]

/-- Witness for C8: the trimming branch applied at the concrete name
`" dev "`. -/
theorem config_loading_spec_witness :
    loadConfigDeviceName (ConfigInput.parsed (some (pyStr " dev ")))
      = Except.ok (some (pyStrip (pyStr " dev "))) :=
  config_loading_spec.2.2.2.2.1 (pyStr " dev ") (by decide)

/-!
## `AdbDeviceManager.get_packages`

```python
command = "pm list packages"
packages = self.device.shell(command).strip().split("\n")
result = [package[8:] for package in packages]
output = "\n".join(result)
return output
```
-/

/-- `get_packages`, with the raw shell output of `pm list packages`
passed in. -/
def get_packages (shellOutput : PyStr) : PyStr :=
  let packages := splitOnChar '\n' (pyStrip shellOutput)
  let result := packages.map (fun package => package.drop 8)
  pyJoin (pyStr "\n") result

/-- Splitting a string free of the separator yields the single piece. -/
theorem splitOnChar_of_not_mem {c : Char} {a : PyStr} (h : c ∉ a) :
    splitOnChar c a = [a] := by
  induction a with
  | nil => rfl
  | cons x xs ih =>
    have hxc : ¬ (x = c) := fun hx => h (hx ▸ List.mem_cons_self x xs)
    have ht : c ∉ xs := fun hc => h (List.mem_cons_of_mem x hc)
    simp only [splitOnChar, if_neg hxc, ih ht]

/-- Splitting peels off a separator-free piece before a separator. -/
theorem splitOnChar_append_cons {c : Char} {a : PyStr} (rest : PyStr) (h : c ∉ a) :
    splitOnChar c (a ++ c :: rest) = a :: splitOnChar c rest := by
  induction a with
  | nil => simp [splitOnChar]
  | cons x xs ih =>
    have hxc : ¬ (x = c) := fun hx => h (hx ▸ List.mem_cons_self x xs)
    have ht : c ∉ xs := fun hc => h (List.mem_cons_of_mem x hc)
    show splitOnChar c (x :: (xs ++ c :: rest)) = (x :: xs) :: splitOnChar c rest
    simp only [splitOnChar, if_neg hxc]
    rw [ih ht]

/-- `split` is a left inverse of `join` on nonempty lists of
separator-free pieces. -/
theorem splitOnChar_pyJoin {c : Char} {lines : List PyStr} (hne : lines ≠ [])
    (hfree : ∀ l ∈ lines, c ∉ l) :
    splitOnChar c (pyJoin [c] lines) = lines := by
  induction lines with
  | nil => exact absurd rfl hne
  | cons a t ih =>
    cases t with
    | nil => exact splitOnChar_of_not_mem (hfree a (List.mem_cons_self a []))
    | cons b t' =>
      have ha : c ∉ a := hfree a (List.mem_cons_self a _)
      have hrest : ∀ l ∈ b :: t', c ∉ l := fun l hl => hfree l (List.mem_cons_of_mem a hl)
      have : pyJoin [c] (a :: b :: t') = a ++ c :: pyJoin [c] (b :: t') := by
        simp [pyJoin]
      rw [this, splitOnChar_append_cons _ ha, ih (by simp) hrest]

/-- C4: `get_packages` drops exactly the first 8 characters of every line
of the (stripped) shell output with no check that the `"package:"` prefix
is present — a short line such as `"abc"` becomes empty — and rejoins with
newlines; on `"package:a\npackage:bb\n"` it returns `"a\nbb"`. -/
theorem get_packages_spec :
    get_packages (pyStr "package:a\npackage:bb\n") = pyStr "a\nbb" ∧
    get_packages (pyStr "abc") = [] ∧
    (∀ lines : List PyStr, lines ≠ [] → (∀ l ∈ lines, '\n' ∉ l) →
      pyStrip (pyJoin (pyStr "\n") lines) = pyJoin (pyStr "\n") lines →
      get_packages (pyJoin (pyStr "\n") lines)
        = pyJoin (pyStr "\n") (lines.map (fun l => l.drop 8))) := by
  refine ⟨by decide, by decide, ?_⟩
  intro lines hne hfree hstrip
  simp only [get_packages, hstrip]
  rw [show pyStr "\n" = ['\n'] from rfl, splitOnChar_pyJoin hne hfree]

/-- Witness for C4: the per-line branch applied at two concrete
`package:`-prefixed lines. -/
theorem get_packages_spec_witness :
    get_packages (pyJoin (pyStr "\n") [pyStr "package:a", pyStr "package:bb"])
      = pyJoin (pyStr "\n") ([pyStr "package:a", pyStr "package:bb"].map (fun l => l.drop 8)) :=
  get_packages_spec.2.2 [pyStr "package:a", pyStr "package:bb"]
    (by decide) (by decide) (by decide)

/-!
## `AdbDeviceManager.get_package_action_intents`

```python
output = self.device.shell(f"dumpsys package {package_name}")
resolver_table_start = output.find("Activity Resolver Table:")
if resolver_table_start == -1: return []
resolver_section = output[resolver_table_start:]
non_data_start = resolver_section.find("\n  Non-Data Actions:")
if non_data_start == -1: return []
section_end = resolver_section[non_data_start:].find("\n\n")
if section_end == -1: non_data_section = resolver_section[non_data_start:]
else: non_data_section = resolver_section[non_data_start : non_data_start + section_end]
actions = [stripped line for line in non_data_section.split("\n")
           if stripped line startswith "android." or "com."]
```
-/

/-- The marker opening the activity-resolver table in `dumpsys` output. -/
def activityResolverMarker : PyStr := pyStr "Activity Resolver Table:"

/-- The marker opening the non-data actions subsection. -/
def nonDataActionsMarker : PyStr := pyStr "\n  Non-Data Actions:"

/-- `get_package_action_intents`, with the `dumpsys package <name>` shell
output passed in. -/
def get_package_action_intents (dumpsysOutput : PyStr) : List PyStr :=
  match pyFind dumpsysOutput activityResolverMarker with
  | none => []
  | some resolverTableStart =>
    let resolverSection := dumpsysOutput.drop resolverTableStart
    match pyFind resolverSection nonDataActionsMarker with
    | none => []
    | some nonDataStart =>
      let nonDataSection :=
        match pyFind (resolverSection.drop nonDataStart) (pyStr "\n\n") with
        | none => resolverSection.drop nonDataStart
        | some sectionEnd => (resolverSection.drop nonDataStart).take sectionEnd
      ((splitOnChar '\n' nonDataSection).map pyStrip).filter
        (fun line => (pyStr "android.").isPrefixOf line || (pyStr "com.").isPrefixOf line)

/-- Python `find` returns `-1` exactly when the needle is not an infix of
the haystack. -/
theorem pyFind_eq_none_iff {s needle : PyStr} :
    pyFind s needle = none ↔ ¬ (needle <:+: s) := by
  induction s with
  | nil =>
    by_cases h : needle.isPrefixOf ([] : PyStr)
    · have hp : needle <+: ([] : PyStr) := List.isPrefixOf_iff_prefix.mp h
      simp [pyFind, h, hp.isInfix]
    · simp only [pyFind, if_neg h]
      refine ⟨fun _ hx => ?_, fun _ => trivial⟩
      have hnil : needle = [] := List.sublist_nil.mp hx.sublist
      subst hnil
      exact h rfl
  | cons c rest ih =>
    by_cases h : needle.isPrefixOf (c :: rest)
    · have hp : needle <+: c :: rest := List.isPrefixOf_iff_prefix.mp h
      simp [pyFind, h, List.infix_cons_iff, hp]
    · have hp : ¬ (needle <+: c :: rest) := fun hx =>
        h (List.isPrefixOf_iff_prefix.mpr hx)
      simp [pyFind, h, List.infix_cons_iff, hp, ih]

/-- C5: with the activity-resolver-table marker absent the result is
empty; with the non-data-actions marker absent from the resolver section
the result is empty; otherwise the trimmed `android.`/`com.` lines of the
subsection up to the blank-line boundary (or end of text) are returned in
order. -/
theorem get_package_action_intents_spec :
    (∀ out : PyStr, ¬ (activityResolverMarker <:+: out) →
      get_package_action_intents out = []) ∧
    (∀ (out : PyStr) (i : Nat), pyFind out activityResolverMarker = some i →
      ¬ (nonDataActionsMarker <:+: out.drop i) →
      get_package_action_intents out = []) ∧
    get_package_action_intents (pyStr "junk\nActivity Resolver Table:\n  Non-Data Actions:\n      android.intent.action.MAIN:\n        com.example/.Main filter\n\n  MIME Typed Actions:\n      android.intent.action.VIEW:")
      = [pyStr "android.intent.action.MAIN:", pyStr "com.example/.Main filter"] ∧
    get_package_action_intents (pyStr "Activity Resolver Table:\n  Non-Data Actions:\n      com.x.ACTION:")
      = [pyStr "com.x.ACTION:"] := by
  refine ⟨?_, ?_, by decide, by decide⟩
  · intro out h
    have hn : pyFind out activityResolverMarker = none := pyFind_eq_none_iff.mpr h
    simp [get_package_action_intents, hn]
  · intro out i h1 h2
    have hn : pyFind (out.drop i) nonDataActionsMarker = none := pyFind_eq_none_iff.mpr h2
    simp [get_package_action_intents, h1, hn]

/-- Witness for C5: both marker-absent branches at concrete inputs. -/
theorem get_package_action_intents_spec_witness :
    get_package_action_intents (pyStr "no resolver table") = [] ∧
    get_package_action_intents (pyStr "Activity Resolver Table:\n  other") = [] := by
  constructor
  · exact get_package_action_intents_spec.1 (pyStr "no resolver table") (by decide)
  · exact get_package_action_intents_spec.2.1
      (pyStr "Activity Resolver Table:\n  other") 0 (by decide) (by decide)

/-!
## `AdbDeviceManager.get_uilayout`

The on-device dump and file pull are external; the model receives the
parsed XML as a list of nodes (`findall(".//node[@clickable='true']")`
becomes the `clickable` flag, and `element.get(attr, "")` becomes the
string fields).

```python
def calculate_center(bounds_str):
    matches = re.findall(r"\[(\d+),(\d+)\]", bounds_str)
    if len(matches) == 2:
        x1, y1 = map(int, matches[0]); x2, y2 = map(int, matches[1])
        return (x1 + x2) // 2, (y1 + y2) // 2
    return None
```
-/

/-- Python `int` on a nonempty decimal-digit string. -/
def digitsToNat (ds : PyStr) : Nat :=
  ds.foldl (fun acc c => acc * 10 + (c.toNat - 48)) 0

/-- Match one literal character at the start of the input, returning the
rest. -/
def expectChar (c : Char) : PyStr → Option PyStr
  | [] => none
  | x :: r => if x = c then some r else none

/-- Match the greedy `(\d+)` group at the start of the input, returning
the captured number and the rest.  Greediness never backtracks here
because the following literals `,` and `]` are not digits. -/
def expectDigits (s : PyStr) : Option (Nat × PyStr) :=
  if s.takeWhile Char.isDigit = [] then none
  else some (digitsToNat (s.takeWhile Char.isDigit), s.dropWhile Char.isDigit)

/-- One attempt of the regex `\[(\d+),(\d+)\]` anchored at the start of
`s`: on success returns the two captured numbers and the rest of the
input after the match. -/
def matchPair (s : PyStr) : Option (Nat × Nat × PyStr) :=
  (expectChar '[' s).bind fun r =>
  (expectDigits r).bind fun p =>
  (expectChar ',' p.2).bind fun r2 =>
  (expectDigits r2).bind fun q =>
  (expectChar ']' q.2).map fun r4 => (p.1, q.1, r4)

/-- A successful `expectChar` consumes one character. -/
theorem expectChar_length {c : Char} {s r : PyStr} (h : expectChar c s = some r) :
    r.length < s.length := by
  cases s with
  | nil => simp [expectChar] at h
  | cons x t =>
    simp only [expectChar] at h
    split at h
    · cases h
      simp
    · cases h

/-- `expectDigits` never grows the input. -/
theorem expectDigits_length {s : PyStr} {n : Nat} {r : PyStr}
    (h : expectDigits s = some (n, r)) : r.length ≤ s.length := by
  simp only [expectDigits] at h
  split at h
  · cases h
  · cases h
    exact (List.dropWhile_suffix Char.isDigit).length_le

/-- A successful match consumes at least one character. -/
theorem matchPair_rest_length {s : PyStr} {x y : Nat} {rest : PyStr}
    (h : matchPair s = some (x, y, rest)) : rest.length < s.length := by
  simp only [matchPair, Option.bind_eq_some, Option.map_eq_some'] at h
  obtain ⟨r, h1, p, h2, r2, h3, q, h4, r4, h5, heq⟩ := h
  obtain ⟨-, -, rfl⟩ : p.1 = x ∧ q.1 = y ∧ r4 = rest := by
    constructor
    · exact congrArg Prod.fst heq
    · exact ⟨congrArg (fun z => z.2.1) heq, congrArg (fun z => z.2.2) heq⟩
  have l1 := expectChar_length h1
  have l2 := expectDigits_length (n := p.1) (r := p.2) (by simpa using h2)
  have l3 := expectChar_length h3
  have l4 := expectDigits_length (n := q.1) (r := q.2) (by simpa using h4)
  have l5 := expectChar_length h5
  omega

/-- `re.findall(r"\[(\d+),(\d+)\]", s)`: scan left to right, collecting
non-overlapping matches, advancing one character where no match starts.
The fuel argument only bounds the recursion; `findallAux_congr` shows the
initial fuel `s.length` is never exhausted. -/
def findallAux : Nat → PyStr → List (Nat × Nat)
  | 0, _ => []
  | _ + 1, [] => []
  | fuel + 1, c :: rest =>
    match matchPair (c :: rest) with
    | some (x, y, rest2) => (x, y) :: findallAux fuel rest2
    | none => findallAux fuel rest

/-- The result of `findallAux` does not depend on the fuel once the fuel
covers the input length, so `findall` below is fuel-independent. -/
theorem findallAux_congr :
    ∀ (fuel₁ fuel₂ : Nat) (s : PyStr), s.length ≤ fuel₁ → s.length ≤ fuel₂ →
      findallAux fuel₁ s = findallAux fuel₂ s := by
  intro fuel₁
  induction fuel₁ with
  | zero =>
    intro fuel₂ s h1 h2
    have : s = [] := List.eq_nil_of_length_eq_zero (Nat.le_zero.mp h1)
    subst this
    cases fuel₂ <;> rfl
  | succ f ih =>
    intro fuel₂ s h1 h2
    cases s with
    | nil => cases fuel₂ <;> rfl
    | cons c rest =>
      cases fuel₂ with
      | zero => simp at h2
      | succ g =>
        simp only [findallAux]
        cases hm : matchPair (c :: rest) with
        | some v =>
          obtain ⟨x, y, rest2⟩ := v
          have hlt := matchPair_rest_length hm
          simp only [List.length_cons] at hlt h1 h2
          simp [ih g rest2 (by omega) (by omega)]
        | none =>
          simp only [List.length_cons] at h1 h2
          simp [ih g rest (by omega) (by omega)]

/-- `re.findall` of the bounds regex over the whole string. -/
def findall (s : PyStr) : List (Nat × Nat) := findallAux s.length s

/-- `calculate_center` from `get_uilayout`: the floor-divided midpoint
when the bounds string parses as exactly two coordinate pairs, `None`
otherwise. -/
def calculate_center (boundsStr : PyStr) : Option (Nat × Nat) :=
  match findall boundsStr with
  | [(x1, y1), (x2, y2)] => some ((x1 + x2) / 2, (y1 + y2) / 2)
  | _ => none

/-- A node of the parsed `window_dump.xml`, restricted to the attributes
`get_uilayout` reads. -/
structure UiNode where
  clickable : Bool
  text : PyStr
  contentDesc : PyStr
  bounds : PyStr

/-- Decimal rendering of a number, as Python's f-string does. -/
def natRepr (n : Nat) : PyStr := (toString n).data

/-- The formatted block emitted for one qualifying element. -/
def formatElement (e : UiNode) : PyStr :=
  let info := pyStr "Clickable element:"
  let info := if !e.text.isEmpty then info ++ pyStr "\n  Text: " ++ e.text else info
  let info :=
    if !e.contentDesc.isEmpty then info ++ pyStr "\n  Description: " ++ e.contentDesc
    else info
  let info := info ++ pyStr "\n  Bounds: " ++ e.bounds
  match calculate_center e.bounds with
  | some (cx, cy) =>
    info ++ pyStr "\n  Center: (" ++ natRepr cx ++ pyStr ", " ++ natRepr cy ++ pyStr ")"
  | none => info

/-- The sentinel returned when no qualifying element exists. -/
def noClickableElementsMsg : PyStr :=
  pyStr "No clickable elements found with text or description"

/-- The blocks collected for the clickable elements that carry text or a
content description. -/
def clickableBlocks (nodes : List UiNode) : List PyStr :=
  (nodes.filter (fun e => e.clickable)).filterMap
    (fun e =>
      if !e.text.isEmpty || !e.contentDesc.isEmpty then some (formatElement e)
      else none)

/-- `get_uilayout`, with the parsed UI dump passed in. -/
def get_uilayout (nodes : List UiNode) : PyStr :=
  if (clickableBlocks nodes).isEmpty then noClickableElementsMsg
  else pyJoin (pyStr "\n\n") (clickableBlocks nodes)

/-- C6: with no element both clickable and carrying text or a content
description, `get_uilayout` returns exactly the fixed sentinel — which is
not the empty string; with at least one qualifying element it returns the
formatted blocks joined by a blank line. -/
theorem get_uilayout_spec :
    (∀ nodes : List UiNode,
      (∀ e ∈ nodes, ¬ (e.clickable = true ∧ (e.text ≠ [] ∨ e.contentDesc ≠ []))) →
      get_uilayout nodes = noClickableElementsMsg) ∧
    noClickableElementsMsg ≠ [] ∧
    (∀ nodes : List UiNode,
      (∃ e ∈ nodes, e.clickable = true ∧ (e.text ≠ [] ∨ e.contentDesc ≠ [])) →
      get_uilayout nodes = pyJoin (pyStr "\n\n") (clickableBlocks nodes)) := by
  refine ⟨?_, by decide, ?_⟩
  · intro nodes h
    have hb : clickableBlocks nodes = [] := by
      rw [clickableBlocks, List.filterMap_eq_nil_iff]
      intro e he
      obtain ⟨hmem, hcl⟩ := List.mem_filter.mp he
      have := h e hmem
      have htext : e.text = [] ∧ e.contentDesc = [] := by
        by_contra hc
        exact this ⟨hcl, by tauto⟩
      simp [htext.1, htext.2]
    simp [get_uilayout, hb]
  · intro nodes ⟨e, hmem, hcl, hq⟩
    have hsome : (fun e : UiNode =>
        if !e.text.isEmpty || !e.contentDesc.isEmpty then some (formatElement e)
        else none) e = some (formatElement e) := by
      rcases hq with hq | hq <;> simp [List.isEmpty_iff, hq]
    have hb : formatElement e ∈ clickableBlocks nodes :=
      List.mem_filterMap.mpr ⟨e, List.mem_filter.mpr ⟨hmem, hcl⟩, hsome⟩
    have hne : clickableBlocks nodes ≠ [] := List.ne_nil_of_mem hb
    simp [get_uilayout, List.isEmpty_iff, hne]

/-- Witness for C6: both branches at concrete node lists. -/
theorem get_uilayout_spec_witness :
    get_uilayout [⟨true, [], [], pyStr "[0,0][2,2]"⟩] = noClickableElementsMsg ∧
    get_uilayout [⟨true, pyStr "OK", [], pyStr "[0,0][2,2]"⟩]
      = pyJoin (pyStr "\n\n") (clickableBlocks [⟨true, pyStr "OK", [], pyStr "[0,0][2,2]"⟩]) := by
  constructor
  · exact get_uilayout_spec.1 [⟨true, [], [], pyStr "[0,0][2,2]"⟩] (by simp)
  · exact get_uilayout_spec.2.2 [⟨true, pyStr "OK", [], pyStr "[0,0][2,2]"⟩]
      ⟨_, List.mem_cons_self _ _, rfl, Or.inl (by simp [pyStr])⟩

/-- C7: bounds parsing as exactly two coordinate pairs yields the
floor-divided midpoint — `"[0,0][100,200]"` gives `(50, 100)` — any other
number of pairs yields no center, and the block then omits the Center
line. -/
theorem calculate_center_spec :
    calculate_center (pyStr "[0,0][100,200]") = some (50, 100) ∧
    (∀ (s : PyStr) (x1 y1 x2 y2 : Nat),
      findall s = [(x1, y1), (x2, y2)] →
      calculate_center s = some ((x1 + x2) / 2, (y1 + y2) / 2)) ∧
    (∀ s : PyStr, (findall s).length ≠ 2 → calculate_center s = none) ∧
    formatElement ⟨true, pyStr "t", [], pyStr "[0,0]"⟩
      = pyStr "Clickable element:\n  Text: t\n  Bounds: [0,0]" ∧
    formatElement ⟨true, pyStr "t", [], pyStr "[0,0][100,200]"⟩
      = pyStr "Clickable element:\n  Text: t\n  Bounds: [0,0][100,200]\n  Center: (50, 100)" := by
  refine ⟨by decide, ?_, ?_, by decide, by decide⟩
  · intro s x1 y1 x2 y2 h
    simp [calculate_center, h]
  · intro s h
    rw [calculate_center]
    cases hf : findall s with
    | nil => rfl
    | cons a t =>
      obtain ⟨xa, ya⟩ := a
      cases t with
      | nil => rfl
      | cons b t' =>
        obtain ⟨xb, yb⟩ := b
        cases t' with
        | nil => rw [hf] at h; simp at h
        | cons c t'' => rfl

/-- Witness for C7: the two-pair branch and the other-count branch at
concrete bounds strings. -/
theorem calculate_center_spec_witness :
    calculate_center (pyStr "[0,0][4,6]") = some ((0 + 4) / 2, (0 + 6) / 2) ∧
    calculate_center (pyStr "[1,2]") = none := by
  constructor
  · exact calculate_center_spec.2.1 (pyStr "[0,0][4,6]") 0 0 4 6 (by decide)
  · exact calculate_center_spec.2.2.1 (pyStr "[1,2]") (by decide)
